import Mathlib

/-!
Shallow embedding of the Apple DART IOMMU driver
(drivers/iommu/apple-dart.c) and proofs about its stream-map,
locked-table-shadow, domain-finalize, attach and per-page operations.

Machine integers (u32/u64 register values, bitmaps, addresses) are
modelled as Nat; all the driver's bit operations on them (and, or, xor,
shifts, test_bit) stay within 64 bits, where Nat and u64 agree.
MMIO register files are modelled as functions from stream id to value;
a hardware write loop driven by a stream bitmap becomes a pointwise
update of that function.  WARN_ON in the source is a diagnostic only
(execution continues), so it is not modelled.  devm_memremap'd table
memory is modelled as a list of 64-bit words together with a Boolean
"mapping present" flag, so that the memory contents survive an unmap.
-/

set_option maxRecDepth 40000

namespace AppleDart

/-- DMA_BIT_MASK(n): low n bits set.  For n ≤ 64 this agrees with the
C macro (which special-cases n = 64 only to avoid shift UB). -/
def dmaBitMask (n : Nat) : Nat := 2 ^ n - 1

/-- Complement within a 64-bit word, used for `~DMA_BIT_MASK(36)` on u64. -/
def compl64 (m : Nat) : Nat := m ^^^ dmaBitMask 64

/-- fls64: index of the most significant set bit, one-based; 0 for 0.
Fuel-based so that it reduces by rfl; 64 iterations cover every u64. -/
def fls64Go : Nat → Nat → Nat
  | 0, _ => 0
  | fuel + 1, x => if x = 0 then 0 else fls64Go fuel (x / 2) + 1

def fls64 (x : Nat) : Nat := fls64Go 64 x

/-- find_first_bit over an `n`-bit window of bitmap `bm`; returns `n`
when no bit is set, matching the C helper. -/
def findFirstBit (bm : Nat) (n : Nat) : Nat :=
  ((List.range n).find? (fun i => bm.testBit i)).getD n

/-- Per-variant hardware description: the subset of struct apple_dart_hw
used by the modelled operations (TCR field values, 4-level capability
bit, TTBR slot count). -/
structure DartHw where
  tcr_enabled : Nat
  tcr_disabled : Nat
  tcr_bypass : Nat
  tcr_4level : Nat
  ttbr_count : Nat
  deriving DecidableEq

/-- apple_dart_hw_t8103 (T8020 generation): TCR_TRANSLATE_ENABLE = bit 7,
bypass = BYPASS_DAPF | BYPASS_DART = bits 12 and 8, no 4-level bit. -/
def apple_dart_hw_t8103 : DartHw :=
  { tcr_enabled := 2 ^ 7
    tcr_disabled := 0
    tcr_bypass := 2 ^ 12 + 2 ^ 8
    tcr_4level := 0
    ttbr_count := 4 }

/-- apple_dart_hw_t8103_usb4: same generation, but tcr_bypass = 0. -/
def apple_dart_hw_t8103_usb4 : DartHw :=
  { tcr_enabled := 2 ^ 7
    tcr_disabled := 0
    tcr_bypass := 0
    tcr_4level := 0
    ttbr_count := 4 }

/-- apple_dart_hw_t6000: same TCR layout as t8103, APPLE_DART2 format. -/
def apple_dart_hw_t6000 : DartHw :=
  { tcr_enabled := 2 ^ 7
    tcr_disabled := 0
    tcr_bypass := 2 ^ 12 + 2 ^ 8
    tcr_4level := 0
    ttbr_count := 4 }

/-- apple_dart_hw_t8110: TCR_TRANSLATE_ENABLE = bit 0, bypass = bits 2
and 1, FOUR_LEVEL = bit 3, one TTBR per stream. -/
def apple_dart_hw_t8110 : DartHw :=
  { tcr_enabled := 2 ^ 0
    tcr_disabled := 0
    tcr_bypass := 2 ^ 2 + 2 ^ 1
    tcr_4level := 2 ^ 3
    ttbr_count := 1 }

/-- One physical DART instance (struct apple_dart): the pure-data fields
read by the modelled operations.  `id` stands for the struct's identity
(pointer); distinct hardware units have distinct ids, so C pointer
comparison becomes structural equality. -/
structure Dart where
  id : Nat
  hw : DartHw
  ias : Nat
  oas : Nat
  pgsize : Nat
  numStreams : Nat
  supportsBypass : Bool
  locked : Bool
  dmaMin : Nat
  dmaMax : Nat
  deriving DecidableEq

/-- struct apple_dart_stream_map: one hardware unit plus a stream-id
bitmap (bit sid set ⇔ stream sid selected). -/
structure SMap where
  dart : Dart
  sidmap : Nat
  deriving DecidableEq

/-- TCR register file of one unit: stream id ↦ current TCR value. -/
def TcrRegs := Nat → Nat

/-- apple_dart_hw_enable_bypass: for each set bit sid < num_streams,
writel(hw->tcr_bypass, TCR(sid)).  The loop writes each selected TCR
once, so the final register file is this pointwise update. -/
def apple_dart_hw_enable_bypass (sm : SMap) (regs : TcrRegs) : TcrRegs :=
  fun sid =>
    if sid < sm.dart.numStreams ∧ sm.sidmap.testBit sid = true then
      sm.dart.hw.tcr_bypass
    else regs sid

/-- apple_dart_hw_disable_dma: writel(hw->tcr_disabled, TCR(sid)) for
each selected stream. -/
def apple_dart_hw_disable_dma (sm : SMap) (regs : TcrRegs) : TcrRegs :=
  fun sid =>
    if sid < sm.dart.numStreams ∧ sm.sidmap.testBit sid = true then
      sm.dart.hw.tcr_disabled
    else regs sid

/-- apple_dart_hw_enable_translation: writel(tcr_enabled | 4level?, TCR). -/
def apple_dart_hw_enable_translation (sm : SMap) (levels : Nat)
    (regs : TcrRegs) : TcrRegs :=
  fun sid =>
    if sid < sm.dart.numStreams ∧ sm.sidmap.testBit sid = true then
      sm.dart.hw.tcr_enabled |||
        (if levels = 4 then sm.dart.hw.tcr_4level else 0)
    else regs sid

/-- A stream can complete a DMA access iff its TCR has the
translate-enable bit or a bypass bit set (model of the register
fields: TCR is the only isolation control once streams are globally
enabled). -/
def canDma (hw : DartHw) (v : Nat) : Bool :=
  (v &&& hw.tcr_enabled != 0) || (v &&& hw.tcr_bypass != 0)

/-! ## Locked-unit shadow tables

dart->locked_ttbr[sid][idx] / dart->shadow_ttbr[sid][idx] are
devm_memremap'd pointers to a page of u64 entries.  The model separates
the mapping (present or not) from the underlying memory contents, so
that zeroing-before-unmap and contents surviving an unmap are
expressible.  A table's contents are a list of 64-bit words; the page
holds pgsize / 8 of them. -/

structure LockedTables where
  lockedMapped : Nat → Nat → Bool
  shadowMapped : Nat → Nat → Bool
  lockedMem : Nat → Nat → List Nat
  shadowMem : Nat → Nat → List Nat

/-- The entry-copy loop of apple_dart_hw_sync_locked:
`for entry in [0, n): dst[entry] = src[entry]`. -/
def copyEntries (n : Nat) (dst src : List Nat) : List Nat :=
  src.take n ++ dst.drop n

/-- memset(p, 0, pgsize) on a table of words: zero the first n entries. -/
def zeroEntries (n : Nat) (l : List Nat) : List Nat :=
  List.replicate n 0 ++ l.drop n

/-- apple_dart_hw_sync_locked: for each selected stream and each TTBR
slot, if both the locked table and the shadow table are mapped, copy
every raw entry of the shadow page over the locked page; slots with
either mapping absent are skipped (`continue`). -/
def apple_dart_hw_sync_locked (sm : SMap) (st : LockedTables) : LockedTables :=
  { st with
    lockedMem := fun sid idx =>
      if sid < sm.dart.numStreams ∧ sm.sidmap.testBit sid = true ∧
          idx < sm.dart.hw.ttbr_count ∧
          st.lockedMapped sid idx = true ∧ st.shadowMapped sid idx = true then
        copyEntries (sm.dart.pgsize / 8) (st.lockedMem sid idx) (st.shadowMem sid idx)
      else st.lockedMem sid idx }

/-- apple_dart_hw_clear_locked_ttbr at slot `idx`: for each selected
stream, if the locked table is mapped, memset it to zero and unmap it;
then unmap the shadow table (its memory is not written). -/
def apple_dart_hw_clear_locked_ttbr (sm : SMap) (idx : Nat)
    (st : LockedTables) : LockedTables :=
  { lockedMem := fun sid i =>
      if sid < sm.dart.numStreams ∧ sm.sidmap.testBit sid = true ∧ i = idx ∧
          st.lockedMapped sid i = true then
        zeroEntries (sm.dart.pgsize / 8) (st.lockedMem sid i)
      else st.lockedMem sid i
    lockedMapped := fun sid i =>
      if sid < sm.dart.numStreams ∧ sm.sidmap.testBit sid = true ∧ i = idx then
        false
      else st.lockedMapped sid i
    shadowMapped := fun sid i =>
      if sid < sm.dart.numStreams ∧ sm.sidmap.testBit sid = true ∧ i = idx then
        false
      else st.shadowMapped sid i
    shadowMem := st.shadowMem }

/-! ## Master config and of_xlate -/

/-- struct apple_dart_master_cfg: derived bypass-support flag plus up to
MAX_DARTS_PER_DEVICE = 3 (dart, sidmap) slots.  The C array's non-NULL
slots always form a prefix (of_xlate fills the first free slot), so the
slots are modelled as a list of length at most 3; the iteration macro
for_each_stream_map, which stops at the first NULL dart, walks exactly
this list. -/
structure MasterCfg where
  supportsBypass : Bool
  streamMaps : List SMap
  deriving DecidableEq

/-- First of_xlate slot loop: find the slot whose dart is `dart` and
set bit `sid` in it. -/
def setExistingSlot : List SMap → Dart → Nat → Option (List SMap)
  | [], _, _ => none
  | sm :: rest, dart, sid =>
    if sm.dart = dart then
      some ({ sm with sidmap := sm.sidmap ||| 2 ^ sid } :: rest)
    else
      (setExistingSlot rest dart sid).map (sm :: ·)

/-- Slot bookkeeping of apple_dart_of_xlate after the bypass AND:
reuse the slot for this dart, otherwise take the first free slot of
the 3, otherwise fail with -EINVAL. -/
def ofXlateSlots (cfg : MasterCfg) (dart : Dart) (sid : Nat) :
    Except Int MasterCfg :=
  match setExistingSlot cfg.streamMaps dart sid with
  | some sms => .ok { cfg with streamMaps := sms }
  | none =>
    if cfg.streamMaps.length < 3 then
      .ok { cfg with streamMaps := cfg.streamMaps ++ [⟨dart, 2 ^ sid⟩] }
    else .error (-22)

/-- apple_dart_of_xlate: `cfg?` is the device's existing master config
(none on the first specifier), `dart` the referenced unit, `args` the
specifier cells.  Exactly one cell is required; a fresh config defaults
supports_bypass to true; a unit whose pgsize differs from the config's
first unit is rejected; the unit's bypass support is ANDed in; then the
slot bookkeeping runs. -/
def apple_dart_of_xlate (cfg? : Option MasterCfg) (dart : Dart)
    (args : List Nat) : Except Int MasterCfg :=
  match args with
  | [sid] =>
    let cfg : MasterCfg := match cfg? with
      | none => { supportsBypass := true, streamMaps := [] }
      | some c => c
    match cfg.streamMaps.head? with
    | some sm0 =>
      if sm0.dart.pgsize ≠ dart.pgsize then .error (-22)
      else
        ofXlateSlots
          { cfg with supportsBypass := cfg.supportsBypass && dart.supportsBypass }
          dart sid
    | none =>
      ofXlateSlots
        { cfg with supportsBypass := cfg.supportsBypass && dart.supportsBypass }
        dart sid
  | _ => .error (-22)

/-! ## Identity attach -/

/-- One TCR register write: unit identity, stream id, value written. -/
structure RegWrite where
  dartId : Nat
  sid : Nat
  value : Nat
  deriving DecidableEq

/-- The writes issued by apple_dart_hw_enable_bypass on one stream map,
in stream order. -/
def bypassWrites (sm : SMap) : List RegWrite :=
  ((List.range sm.dart.numStreams).filter (fun sid => sm.sidmap.testBit sid)).map
    (fun sid => ⟨sm.dart.id, sid, sm.dart.hw.tcr_bypass⟩)

/-- apple_dart_attach_dev_identity, returning the errno together with
the trace of TCR register writes it issues.  The bypass-flag guard runs
first; then stream_maps[0].dart->locked is dereferenced (`none` models
the NULL dereference on an empty config); on success every stream map
of the config gets bypass enabled. -/
def apple_dart_attach_dev_identity (cfg : MasterCfg) :
    Option (Int × List RegWrite) :=
  if cfg.supportsBypass = false then some (-22, [])
  else
    match cfg.streamMaps with
    | [] => none
    | sm0 :: _ =>
      if sm0.dart.locked = true then some (-22, [])
      else some (0, (cfg.streamMaps.map bypassWrites).flatten)

/-! ## Paging-domain per-page operations

The external io-pgtable engine is modelled by an operation table over
an abstract page-table state type σ; the driver stores an optional
engine handle (pgtbl_ops) and an input-address mask in its domain. -/

structure PgOps (σ : Type) where
  mapPages : σ → Nat → Nat → Nat → Nat → Except Int (σ × Nat)
  unmapPages : σ → Nat → Nat → Nat → σ × Nat
  iovaToPhys : σ → Nat → Nat

structure PagingDomain (σ : Type) where
  pgtbl : Option σ
  mask : Nat

/-- apple_dart_map_pages: fail with -ENODEV when the domain has no
page-table ops (not finalized); otherwise mask the IOVA with the
domain mask and delegate. -/
def apple_dart_map_pages (ops : PgOps σ) (d : PagingDomain σ)
    (iova paddr pgsize pgcount : Nat) :
    Except Int (PagingDomain σ × Nat) :=
  match d.pgtbl with
  | none => .error (-19)
  | some st =>
    (ops.mapPages st (iova &&& d.mask) paddr pgsize pgcount).map
      (fun r => ({ d with pgtbl := some r.1 }, r.2))

/-- apple_dart_iova_to_phys: 0 when the domain has no page-table ops;
otherwise delegate on the masked IOVA. -/
def apple_dart_iova_to_phys (ops : PgOps σ) (d : PagingDomain σ)
    (iova : Nat) : Nat :=
  match d.pgtbl with
  | none => 0
  | some st => ops.iovaToPhys st (iova &&& d.mask)

/-- apple_dart_unmap_pages: no ops guard — the handle is dereferenced
unconditionally, so a missing handle is the undefined NULL dereference,
modelled as `none`. -/
def apple_dart_unmap_pages (ops : PgOps σ) (d : PagingDomain σ)
    (iova pgsize pgcount : Nat) :
    Option (PagingDomain σ × Nat) :=
  match d.pgtbl with
  | none => none
  | some st =>
    let r := ops.unmapPages st (iova &&& d.mask) pgsize pgcount
    some ({ d with pgtbl := some r.1 }, r.2)

/-! ## Domain finalize

alloc_io_pgtable_ops is external (io-pgtable-dart.c is not part of
this driver); it is modelled as a deterministic allocator from the
io_pgtable_cfg the driver builds to an engine handle carrying the
post-allocation cfg fields the driver reads back: the final
pgsize_bitmap and apple_dart_cfg.n_levels.  of_iommu reserved-region
mapping (apple_dart_setup_resv_locked) reads firmware data external to
the driver; its return value is the `resvRet` parameter (0 when the
device declares no translated reserved regions). -/

structure IoPgtableCfg where
  pgsizeBitmap : Nat
  ias : Nat
  oas : Nat
  deriving DecidableEq

/-- The engine handle: io_pgtable_ops together with the cfg fields
apple_dart_finalize_domain reads after allocation. -/
structure IoPgtableResult where
  nLevels : Nat
  pgsizeBitmap : Nat
  deriving DecidableEq

/-- struct apple_dart_domain: engine handle (absent until finalized),
finalized flag, IOVA mask, live stream maps and aperture bounds. -/
structure DartDomain where
  pgtblOps : Option IoPgtableResult
  finalized : Bool
  mask : Nat
  pgsizeBitmap : Nat
  apertureStart : Nat
  apertureEnd : Nat
  streamMaps : List SMap
  deriving DecidableEq

/-- Result of one apple_dart_finalize_domain call: the errno, the
domain state on return, whether init_lock was acquired during the call,
and how many alloc_io_pgtable_ops calls were made. -/
structure FinalizeResult where
  ret : Int
  dom : DartDomain
  lockTaken : Bool
  allocCalls : Nat
  deriving DecidableEq

/-- The locked-DART level-count adjustment block of
apple_dart_finalize_domain (the body guarded by `if (dart->locked)`).
`readTCR` models readl of the per-stream TCR register; the TTBR
readback next to it only feeds a WARN_ON and is omitted.  Returns the
adjusted io_pgtable_cfg and dma_max, or `none` for the block's only
failure — the -ENOMEM taken for a locked 3-level unit whose configured
DMA range is neither the full default range nor contained in one
36-bit-aligned window (the caller turns `none` into ret = -ENOMEM). -/
def lockedAdjust (dart : Dart) (sidmap0 : Nat) (readTCR : Nat → Nat)
    (cfg0 : IoPgtableCfg) (ias dmaMax : Nat) :
    Option (IoPgtableCfg × Nat) :=
  if dart.locked = true then
    let sid := findFirstBit sidmap0 dart.numStreams
    if dart.hw.tcr_4level ≠ 0 ∧ dart.ias > 36 then
      if readTCR sid &&& dart.hw.tcr_4level ≠ 0 then
        if ias < 37 then some ({ cfg0 with ias := 37 }, dmaMax)
        else some (cfg0, dmaMax)
      else
        if ias > 36 then
          if dart.dmaMin = 0 ∧ dmaMax = dmaBitMask dart.ias then
            some ({ cfg0 with ias := 36 }, dmaBitMask 36)
          else if (dart.dmaMin ^^^ dmaMax) &&& compl64 (dmaBitMask 36) ≠ 0 then
            none
          else some ({ cfg0 with ias := 36 }, dmaMax)
        else some (cfg0, dmaMax)
    else some (cfg0, dmaMax)
  else some (cfg0, dmaMax)

/-- apple_dart_finalize_domain.  The device's first stream map supplies
the dart (`none` models the NULL dereference on an empty config).  The
pgsize sanity check precedes the lock; the finalized flag is tested
once, under the lock; the stream maps are copied into the domain before
the locked adjustment; the engine is allocated; the IOVA mask is
derived from the final pgsize bitmap and level count capped by the
unit's ias; aperture bounds are recorded and the domain marked
finalized before the reserved regions are mapped. -/
def apple_dart_finalize_domain (dom : DartDomain) (cfg : MasterCfg)
    (readTCR : Nat → Nat) (alloc : IoPgtableCfg → Option IoPgtableResult)
    (pageSize : Nat) (resvRet : Int) : Option FinalizeResult :=
  match cfg.streamMaps with
  | [] => none
  | sm0 :: _ =>
    let dart := sm0.dart
    let dmaMax := dart.dmaMax
    let ias := min dart.ias (fls64 dmaMax)
    if dart.pgsize > pageSize then some ⟨-22, dom, false, 0⟩
    else if dom.finalized = true then some ⟨0, dom, true, 0⟩
    else
      let dom1 := { dom with streamMaps := cfg.streamMaps }
      let cfg0 : IoPgtableCfg := ⟨dart.pgsize, ias, dart.oas⟩
      match lockedAdjust dart sm0.sidmap readTCR cfg0 ias dmaMax with
      | none => some ⟨-12, dom1, true, 0⟩
      | some (pcfg, dmaMax2) =>
        match alloc pcfg with
        | none => some ⟨-12, dom1, true, 1⟩
        | some ops =>
          let mask :=
            if ops.pgsizeBitmap = 4096 then dmaBitMask (min dart.ias 32)
            else if ops.nLevels = 3 then dmaBitMask (min dart.ias 36)
            else if ops.nLevels = 4 then dmaBitMask (min dart.ias 47)
            else dom1.mask
          some ⟨resvRet,
            { dom1 with
              pgtblOps := some ops
              mask := mask
              pgsizeBitmap := ops.pgsizeBitmap
              apertureStart := dart.dmaMin
              apertureEnd := dmaMax2
              finalized := true }, true, 1⟩

/-! ## Shared concrete instances for witnesses and counterexamples -/

/-- A t8103-style unit: 16 streams, 4 KiB pages, unlocked, bypass. -/
def dartA : Dart :=
  ⟨0, apple_dart_hw_t8103, 32, 36, 4096, 16, true, false, 0, dmaBitMask 32⟩

/-- Same capabilities as `dartA` but a distinct unit that is locked. -/
def dartB : Dart :=
  ⟨1, apple_dart_hw_t8103, 32, 36, 4096, 16, true, true, 0, dmaBitMask 32⟩

/-- A fresh, unfinalized domain as produced by domain alloc (kzalloc). -/
def domEmpty : DartDomain := ⟨none, false, 0, 0, 0, 0, []⟩

/-- An allocator model for the external engine: 3-level tables, the
requested page-size bitmap kept. -/
def allocA : IoPgtableCfg → Option IoPgtableResult :=
  fun c => some ⟨3, c.pgsizeBitmap⟩

/-! ## C8: bypass then disable is last-write-wins -/

/-- C8: for every valid stream bitmap on a unit, enabling bypass and
then disabling DMA leaves each selected stream's TCR equal to the
disabled value (the last write wins), under which no stream in the
bitmap can complete a DMA access; the terminal value is not the OR of
the bypass and disabled values (whenever the bypass value is nonzero,
i.e. on every variant where the two differ). -/
theorem bypass_then_disable_terminal (sm : SMap) (regs : TcrRegs) (sid : Nat)
    (hns : sid < sm.dart.numStreams) (hbit : sm.sidmap.testBit sid = true)
    (hdis : sm.dart.hw.tcr_disabled = 0) :
    apple_dart_hw_disable_dma sm (apple_dart_hw_enable_bypass sm regs) sid
        = sm.dart.hw.tcr_disabled
    ∧ canDma sm.dart.hw
        (apple_dart_hw_disable_dma sm (apple_dart_hw_enable_bypass sm regs) sid)
        = false
    ∧ (sm.dart.hw.tcr_bypass ≠ 0 →
        apple_dart_hw_disable_dma sm (apple_dart_hw_enable_bypass sm regs) sid
          ≠ (sm.dart.hw.tcr_bypass ||| sm.dart.hw.tcr_disabled)) := by
  refine ⟨?_, ?_, ?_⟩ <;>
    simp [apple_dart_hw_disable_dma, apple_dart_hw_enable_bypass, canDma,
      hns, hbit, hdis]
  omega

/-- Witness for C8 at stream 3 of a 16-stream t8103 unit with bitmap 8. -/
theorem bypass_then_disable_terminal_witness :
    (3 < (SMap.mk dartA 8).dart.numStreams ∧
      (SMap.mk dartA 8).sidmap.testBit 3 = true ∧
      (SMap.mk dartA 8).dart.hw.tcr_disabled = 0) ∧
    (apple_dart_hw_disable_dma (SMap.mk dartA 8)
        (apple_dart_hw_enable_bypass (SMap.mk dartA 8) (fun _ => 0)) 3
        = (SMap.mk dartA 8).dart.hw.tcr_disabled
    ∧ canDma (SMap.mk dartA 8).dart.hw
        (apple_dart_hw_disable_dma (SMap.mk dartA 8)
          (apple_dart_hw_enable_bypass (SMap.mk dartA 8) (fun _ => 0)) 3)
        = false
    ∧ ((SMap.mk dartA 8).dart.hw.tcr_bypass ≠ 0 →
        apple_dart_hw_disable_dma (SMap.mk dartA 8)
            (apple_dart_hw_enable_bypass (SMap.mk dartA 8) (fun _ => 0)) 3
          ≠ ((SMap.mk dartA 8).dart.hw.tcr_bypass |||
              (SMap.mk dartA 8).dart.hw.tcr_disabled))) :=
  ⟨⟨by decide, by decide, by decide⟩,
    bypass_then_disable_terminal (SMap.mk dartA 8) (fun _ => 0) 3
      (by decide) (by decide) (by decide)⟩

/-! ## C9: guards of the per-page operations on an unfinalized domain -/

/-- C9: on a paging domain whose page-table ops handle is absent
(not finalized), map-pages fails with -ENODEV and iova-to-phys returns
0, both without touching the domain; unmap-pages has no such guard and
dereferences the absent handle (the undefined case, `none`). -/
theorem unfinalized_domain_guards {σ : Type} (ops : PgOps σ)
    (d : PagingDomain σ) (iova paddr pgsize pgcount : Nat)
    (h : d.pgtbl = none) :
    apple_dart_map_pages ops d iova paddr pgsize pgcount = .error (-19)
    ∧ apple_dart_iova_to_phys ops d iova = 0
    ∧ apple_dart_unmap_pages ops d iova pgsize pgcount = none := by
  refine ⟨?_, ?_, ?_⟩ <;>
    simp [apple_dart_map_pages, apple_dart_iova_to_phys,
      apple_dart_unmap_pages, h]

/-- Witness for C9 on a trivial engine over Unit state. -/
theorem unfinalized_domain_guards_witness :
    ((⟨none, 0⟩ : PagingDomain Unit).pgtbl = none) ∧
    (apple_dart_map_pages ⟨fun s _ _ _ _ => .ok (s, 0), fun s _ _ _ => (s, 0), fun _ _ => 0⟩
        (⟨none, 0⟩ : PagingDomain Unit) 4096 8192 4096 1 = .error (-19)
    ∧ apple_dart_iova_to_phys ⟨fun s _ _ _ _ => .ok (s, 0), fun s _ _ _ => (s, 0), fun _ _ => 0⟩
        (⟨none, 0⟩ : PagingDomain Unit) 4096 = 0
    ∧ apple_dart_unmap_pages ⟨fun s _ _ _ _ => .ok (s, 0), fun s _ _ _ => (s, 0), fun _ _ => 0⟩
        (⟨none, 0⟩ : PagingDomain Unit) 4096 4096 1 = none) :=
  ⟨rfl, unfinalized_domain_guards _ _ 4096 8192 4096 1 rfl⟩

/-! ## C10: the IOVA mask makes operations congruent -/

/-- C10: each per-page operation masks the supplied IOVA with the
domain's input-address mask before delegating, so any two IOVAs that
agree on all mask bits produce the same result and the same page-table
state for map, unmap and iova-to-phys. -/
theorem masked_iova_congruence {σ : Type} (ops : PgOps σ)
    (d : PagingDomain σ) (iova1 iova2 paddr pgsize pgcount : Nat)
    (h : iova1 &&& d.mask = iova2 &&& d.mask) :
    apple_dart_map_pages ops d iova1 paddr pgsize pgcount
      = apple_dart_map_pages ops d iova2 paddr pgsize pgcount
    ∧ apple_dart_unmap_pages ops d iova1 pgsize pgcount
      = apple_dart_unmap_pages ops d iova2 pgsize pgcount
    ∧ apple_dart_iova_to_phys ops d iova1
      = apple_dart_iova_to_phys ops d iova2 := by
  refine ⟨?_, ?_, ?_⟩ <;>
    simp [apple_dart_map_pages, apple_dart_unmap_pages,
      apple_dart_iova_to_phys, h]

/-- Witness for C10: a 36-bit mask, two IOVAs differing above bit 35,
an engine over Nat state whose results depend on the address given. -/
theorem masked_iova_congruence_witness :
    ((2 ^ 40 + 4096 : Nat) &&& (⟨some 5, dmaBitMask 36⟩ : PagingDomain Nat).mask
      = (4096 : Nat) &&& (⟨some 5, dmaBitMask 36⟩ : PagingDomain Nat).mask) ∧
    (apple_dart_map_pages
        ⟨fun s i p _ c => .ok (s + i + p, c), fun s i _ c => (s + i, c), fun s i => s + i⟩
        (⟨some 5, dmaBitMask 36⟩ : PagingDomain Nat) (2 ^ 40 + 4096) 8192 4096 1
      = apple_dart_map_pages
        ⟨fun s i p _ c => .ok (s + i + p, c), fun s i _ c => (s + i, c), fun s i => s + i⟩
        (⟨some 5, dmaBitMask 36⟩ : PagingDomain Nat) 4096 8192 4096 1
    ∧ apple_dart_unmap_pages
        ⟨fun s i p _ c => .ok (s + i + p, c), fun s i _ c => (s + i, c), fun s i => s + i⟩
        (⟨some 5, dmaBitMask 36⟩ : PagingDomain Nat) (2 ^ 40 + 4096) 4096 1
      = apple_dart_unmap_pages
        ⟨fun s i p _ c => .ok (s + i + p, c), fun s i _ c => (s + i, c), fun s i => s + i⟩
        (⟨some 5, dmaBitMask 36⟩ : PagingDomain Nat) 4096 4096 1
    ∧ apple_dart_iova_to_phys
        ⟨fun s i p _ c => .ok (s + i + p, c), fun s i _ c => (s + i, c), fun s i => s + i⟩
        (⟨some 5, dmaBitMask 36⟩ : PagingDomain Nat) (2 ^ 40 + 4096)
      = apple_dart_iova_to_phys
        ⟨fun s i p _ c => .ok (s + i + p, c), fun s i _ c => (s + i, c), fun s i => s + i⟩
        (⟨some 5, dmaBitMask 36⟩ : PagingDomain Nat) 4096) :=
  ⟨by decide,
    masked_iova_congruence _ _ (2 ^ 40 + 4096) 4096 8192 4096 1 (by decide)⟩

/-! ## C2: locked-unit shadow sync -/

/-- C2: whatever the shadow tables hold (i.e. after any sequence of
page-table-engine mutations of the shadow memory), one sync call makes
the locked (hardware-visible) table word-for-word identical to its
shadow for every selected stream and every TTBR slot with both
mappings present; the shadow itself is not modified. -/
theorem sync_locked_byte_identical (sm : SMap) (st : LockedTables)
    (sid idx : Nat)
    (hns : sid < sm.dart.numStreams) (hbit : sm.sidmap.testBit sid = true)
    (hidx : idx < sm.dart.hw.ttbr_count)
    (hlm : st.lockedMapped sid idx = true)
    (hshm : st.shadowMapped sid idx = true)
    (hlen : (st.lockedMem sid idx).length = sm.dart.pgsize / 8)
    (hslen : (st.shadowMem sid idx).length = sm.dart.pgsize / 8) :
    (apple_dart_hw_sync_locked sm st).lockedMem sid idx
      = (apple_dart_hw_sync_locked sm st).shadowMem sid idx
    ∧ (apple_dart_hw_sync_locked sm st).shadowMem sid idx
      = st.shadowMem sid idx := by
  constructor
  · simp only [apple_dart_hw_sync_locked]
    rw [if_pos ⟨hns, hbit, hidx, hlm, hshm⟩]
    rw [copyEntries, List.take_of_length_le (le_of_eq hslen),
      List.drop_eq_nil_of_le (le_of_eq hlen), List.append_nil]
  · rfl

/-- Witness for C2: a locked 16-stream unit with 4 KiB tables, all
512 locked entries 7, all 512 shadow entries 9. -/
theorem sync_locked_byte_identical_witness :
    (3 < (SMap.mk dartB 8).dart.numStreams ∧
      (8 : Nat).testBit 3 = true ∧
      0 < (SMap.mk dartB 8).dart.hw.ttbr_count ∧
      (List.replicate 512 (7 : Nat)).length = (SMap.mk dartB 8).dart.pgsize / 8 ∧
      (List.replicate 512 (9 : Nat)).length = (SMap.mk dartB 8).dart.pgsize / 8) ∧
    ((apple_dart_hw_sync_locked (SMap.mk dartB 8)
        ⟨fun _ _ => true, fun _ _ => true,
          fun _ _ => List.replicate 512 7, fun _ _ => List.replicate 512 9⟩).lockedMem 3 0
      = (apple_dart_hw_sync_locked (SMap.mk dartB 8)
        ⟨fun _ _ => true, fun _ _ => true,
          fun _ _ => List.replicate 512 7, fun _ _ => List.replicate 512 9⟩).shadowMem 3 0
    ∧ (apple_dart_hw_sync_locked (SMap.mk dartB 8)
        ⟨fun _ _ => true, fun _ _ => true,
          fun _ _ => List.replicate 512 7, fun _ _ => List.replicate 512 9⟩).shadowMem 3 0
      = List.replicate 512 9) :=
  ⟨⟨by decide, by decide, by decide,
      by rw [List.length_replicate]; rfl, by rw [List.length_replicate]; rfl⟩,
    sync_locked_byte_identical (SMap.mk dartB 8)
      ⟨fun _ _ => true, fun _ _ => true,
        fun _ _ => List.replicate 512 7, fun _ _ => List.replicate 512 9⟩ 3 0
      (by decide) (by decide) (by decide) rfl rfl
      (by rw [List.length_replicate]; rfl) (by rw [List.length_replicate]; rfl)⟩

/-! ## C3: clearing a locked (stream, slot) pair -/

/-- C3 counterexample: clearing a slot does not zero the shadow
memory — it zeroes the locked (hardware-visible) table memory instead.
On a unit with 4 KiB tables, locked entries all 7 and shadow entries
all 9, after the clear the shadow mapping is gone but the shadow
memory still holds its old nonzero contents, while the locked memory
was zeroed; this refutes the claim that the shadow memory is zeroed
before unmapping. -/
theorem clear_locked_shadow_unzeroed_cx :
    ((apple_dart_hw_clear_locked_ttbr (SMap.mk dartB 1) 0
        ⟨fun _ _ => true, fun _ _ => true,
          fun _ _ => List.replicate 512 7, fun _ _ => List.replicate 512 9⟩).shadowMapped 0 0
      = false)
    ∧ ((apple_dart_hw_clear_locked_ttbr (SMap.mk dartB 1) 0
        ⟨fun _ _ => true, fun _ _ => true,
          fun _ _ => List.replicate 512 7, fun _ _ => List.replicate 512 9⟩).shadowMem 0 0
      = List.replicate 512 9)
    ∧ List.replicate 512 (9 : Nat) ≠ List.replicate 512 0
    ∧ ((apple_dart_hw_clear_locked_ttbr (SMap.mk dartB 1) 0
        ⟨fun _ _ => true, fun _ _ => true,
          fun _ _ => List.replicate 512 7, fun _ _ => List.replicate 512 9⟩).lockedMem 0 0
      = List.replicate 512 0) := by
  refine ⟨by decide, rfl, by decide, by decide⟩

/-- C3 as amended: clearing a (stream, slot) pair unmaps both the
locked-table mapping and the shadow mapping, and zeroes the locked
(hardware-visible) table memory before unmapping it, so stale entries
are not left in the hardware-visible table; the shadow memory is left
untouched. -/
theorem clear_locked_zeroes_locked_table (sm : SMap) (idx : Nat)
    (st : LockedTables) (sid : Nat)
    (hns : sid < sm.dart.numStreams) (hbit : sm.sidmap.testBit sid = true)
    (hlm : st.lockedMapped sid idx = true)
    (hlen : (st.lockedMem sid idx).length = sm.dart.pgsize / 8) :
    (apple_dart_hw_clear_locked_ttbr sm idx st).lockedMapped sid idx = false
    ∧ (apple_dart_hw_clear_locked_ttbr sm idx st).shadowMapped sid idx = false
    ∧ (apple_dart_hw_clear_locked_ttbr sm idx st).lockedMem sid idx
        = List.replicate (sm.dart.pgsize / 8) 0
    ∧ (apple_dart_hw_clear_locked_ttbr sm idx st).shadowMem sid idx
        = st.shadowMem sid idx := by
  refine ⟨?_, ?_, ?_, rfl⟩
  · simp [apple_dart_hw_clear_locked_ttbr, hns, hbit]
  · simp [apple_dart_hw_clear_locked_ttbr, hns, hbit]
  · simp [apple_dart_hw_clear_locked_ttbr, hns, hbit, hlm, zeroEntries,
      List.drop_eq_nil_of_le (le_of_eq hlen)]

/-- Witness for C3's amended statement on the same concrete state as
the counterexample. -/
theorem clear_locked_zeroes_locked_table_witness :
    (0 < (SMap.mk dartB 1).dart.numStreams ∧
      (1 : Nat).testBit 0 = true ∧
      (List.replicate 512 (7 : Nat)).length = (SMap.mk dartB 1).dart.pgsize / 8) ∧
    ((apple_dart_hw_clear_locked_ttbr (SMap.mk dartB 1) 0
        ⟨fun _ _ => true, fun _ _ => true,
          fun _ _ => List.replicate 512 7, fun _ _ => List.replicate 512 9⟩).lockedMapped 0 0
      = false
    ∧ (apple_dart_hw_clear_locked_ttbr (SMap.mk dartB 1) 0
        ⟨fun _ _ => true, fun _ _ => true,
          fun _ _ => List.replicate 512 7, fun _ _ => List.replicate 512 9⟩).shadowMapped 0 0
      = false
    ∧ (apple_dart_hw_clear_locked_ttbr (SMap.mk dartB 1) 0
        ⟨fun _ _ => true, fun _ _ => true,
          fun _ _ => List.replicate 512 7, fun _ _ => List.replicate 512 9⟩).lockedMem 0 0
      = List.replicate ((SMap.mk dartB 1).dart.pgsize / 8) 0
    ∧ (apple_dart_hw_clear_locked_ttbr (SMap.mk dartB 1) 0
        ⟨fun _ _ => true, fun _ _ => true,
          fun _ _ => List.replicate 512 7, fun _ _ => List.replicate 512 9⟩).shadowMem 0 0
      = List.replicate 512 9) :=
  ⟨⟨by decide, by decide, by rw [List.length_replicate]; rfl⟩,
    clear_locked_zeroes_locked_table (SMap.mk dartB 1) 0
      ⟨fun _ _ => true, fun _ _ => true,
        fun _ _ => List.replicate 512 7, fun _ _ => List.replicate 512 9⟩ 0
      (by decide) (by decide) rfl (by rw [List.length_replicate]; rfl)⟩

/-! ## C4: identity-attach guards -/

/-- C4 counterexample: a master config whose referenced units all
support bypass but whose second unit is locked.  The attach succeeds
(returns 0) and writes the bypass TCR value 0x1100 to the selected
streams of both units, including the locked one — it does not return
-EINVAL, because only stream_maps[0].dart->locked is checked.  This
refutes the claim that a locked unit anywhere in the config makes the
attach fail before any register write. -/
theorem attach_identity_secondary_locked_cx :
    ((MasterCfg.mk true [⟨dartA, 2⟩, ⟨dartB, 4⟩]).streamMaps.all
        (fun sm => sm.dart.supportsBypass) = true)
    ∧ ((MasterCfg.mk true [⟨dartA, 2⟩, ⟨dartB, 4⟩]).streamMaps.get? 1).map
        (fun sm => sm.dart.locked) = some true
    ∧ apple_dart_attach_dev_identity (MasterCfg.mk true [⟨dartA, 2⟩, ⟨dartB, 4⟩])
        = some (0, [⟨0, 1, 4352⟩, ⟨1, 2, 4352⟩]) := by
  refine ⟨by decide, by decide, by decide⟩

/-- C4 as amended: attaching a device to the identity domain requires
the config's bypass-support flag (which of_xlate maintains as the AND
of all referenced units' bypass support) and that the FIRST referenced
hardware unit is not locked; if either fails, the attach returns
-EINVAL before any hardware register is written, and otherwise it
enables bypass on every stream map of the config. -/
theorem attach_identity_guard (cfg : MasterCfg) (sm0 : SMap)
    (rest : List SMap) (h : cfg.streamMaps = sm0 :: rest) :
    (cfg.supportsBypass = false ∨ sm0.dart.locked = true →
      apple_dart_attach_dev_identity cfg = some (-22, []))
    ∧ (cfg.supportsBypass = true → sm0.dart.locked = false →
      apple_dart_attach_dev_identity cfg
        = some (0, (cfg.streamMaps.map bypassWrites).flatten)) := by
  constructor
  · rintro (hb | hl)
    · simp [apple_dart_attach_dev_identity, hb]
    · rcases hb : cfg.supportsBypass with _ | _
      · simp [apple_dart_attach_dev_identity, hb]
      · simp [apple_dart_attach_dev_identity, hb, h, hl]
  · intro hb hl
    simp [apple_dart_attach_dev_identity, hb, h, hl]

/-- Witness for C4's amended statement: a config with the bypass flag
clear is refused with no register writes. -/
theorem attach_identity_guard_witness :
    (MasterCfg.mk false [⟨dartA, 2⟩]).streamMaps = ⟨dartA, 2⟩ :: [] ∧
    apple_dart_attach_dev_identity (MasterCfg.mk false [⟨dartA, 2⟩])
      = some (-22, []) :=
  ⟨rfl, (attach_identity_guard (MasterCfg.mk false [⟨dartA, 2⟩]) ⟨dartA, 2⟩ []
      rfl).1 (Or.inl rfl)⟩

/-! ## C7: of_xlate specifier parsing -/

lemma setExistingSlot_not_found (l : List SMap) (dart : Dart) (sid : Nat)
    (h : (l.all fun x => x.dart != dart) = true) :
    setExistingSlot l dart sid = none := by
  induction l with
  | nil => rfl
  | cons a t ih =>
    simp only [List.all_cons, Bool.and_eq_true, bne_iff_ne] at h
    simp [setExistingSlot, h.1, ih h.2]

lemma setExistingSlot_found (pre post : List SMap) (sm : SMap)
    (dart : Dart) (sid : Nat)
    (hpre : (pre.all fun x => x.dart != dart) = true) (hsm : sm.dart = dart) :
    setExistingSlot (pre ++ sm :: post) dart sid
      = some (pre ++ { sm with sidmap := sm.sidmap ||| 2 ^ sid } :: post) := by
  induction pre with
  | nil => simp [setExistingSlot, hsm]
  | cons a t ih =>
    simp only [List.all_cons, Bool.and_eq_true, bne_iff_ne] at hpre
    simp [setExistingSlot, hpre.1, ih hpre.2]

/-- The of_xlate wrapper reduces to the slot bookkeeping once the
specifier has one cell and the unit's pgsize matches the config's
first unit (vacuous for a fresh config). -/
lemma of_xlate_some_reduce (c : MasterCfg) (dart : Dart) (sid : Nat)
    (hpg : (c.streamMaps.head?.all fun s => s.dart.pgsize == dart.pgsize) = true) :
    apple_dart_of_xlate (some c) dart [sid]
      = ofXlateSlots
          { c with supportsBypass := c.supportsBypass && dart.supportsBypass }
          dart sid := by
  cases hh : c.streamMaps with
  | nil => simp [apple_dart_of_xlate, hh]
  | cons a t =>
    have hp : a.dart.pgsize = dart.pgsize := by
      rw [hh] at hpg; simpa using hpg
    simp [apple_dart_of_xlate, hh, hp]

/-- C7: of_xlate with no existing config allocates one with
bypass-support defaulting to true; each specifier ANDs the unit's
bypass support into the flag and sets the stream-id bit in the slot
for that unit — reusing the slot already holding the unit, otherwise
taking a free slot among the 3 — and returns -EINVAL when a 4th
distinct unit would be required. -/
theorem of_xlate_spec (dart : Dart) (sid : Nat) :
    (apple_dart_of_xlate none dart [sid]
      = .ok ⟨dart.supportsBypass, [⟨dart, 2 ^ sid⟩]⟩)
    ∧ (∀ c : MasterCfg, ∀ pre post : List SMap, ∀ sm : SMap,
        c.streamMaps = pre ++ sm :: post →
        (pre.all fun x => x.dart != dart) = true →
        sm.dart = dart →
        (c.streamMaps.head?.all fun s => s.dart.pgsize == dart.pgsize) = true →
        apple_dart_of_xlate (some c) dart [sid]
          = .ok ⟨c.supportsBypass && dart.supportsBypass,
                 pre ++ { sm with sidmap := sm.sidmap ||| 2 ^ sid } :: post⟩)
    ∧ (∀ c : MasterCfg,
        (c.streamMaps.all fun x => x.dart != dart) = true →
        c.streamMaps.length < 3 →
        (c.streamMaps.head?.all fun s => s.dart.pgsize == dart.pgsize) = true →
        apple_dart_of_xlate (some c) dart [sid]
          = .ok ⟨c.supportsBypass && dart.supportsBypass,
                 c.streamMaps ++ [⟨dart, 2 ^ sid⟩]⟩)
    ∧ (∀ c : MasterCfg,
        (c.streamMaps.all fun x => x.dart != dart) = true →
        c.streamMaps.length = 3 →
        (c.streamMaps.head?.all fun s => s.dart.pgsize == dart.pgsize) = true →
        apple_dart_of_xlate (some c) dart [sid] = .error (-22)) := by
  refine ⟨?_, ?_, ?_, ?_⟩
  · simp [apple_dart_of_xlate, ofXlateSlots, setExistingSlot]
  · intro c pre post sm hc hpre hsm hpg
    rw [of_xlate_some_reduce c dart sid hpg]
    simp [ofXlateSlots, hc, setExistingSlot_found pre post sm dart sid hpre hsm]
  · intro c hall hlen hpg
    rw [of_xlate_some_reduce c dart sid hpg]
    simp [ofXlateSlots, setExistingSlot_not_found _ _ _ hall, hlen]
  · intro c hall hlen hpg
    rw [of_xlate_some_reduce c dart sid hpg]
    simp [ofXlateSlots, setExistingSlot_not_found _ _ _ hall, hlen]

/-- A third distinct unit, same pgsize, for the C7 witness config. -/
def dartC : Dart :=
  ⟨2, apple_dart_hw_t6000, 32, 42, 4096, 16, true, false, 0, dmaBitMask 32⟩

/-- A fourth distinct unit for the C7 witness. -/
def dartD : Dart :=
  ⟨3, apple_dart_hw_t8110, 38, 40, 4096, 64, false, false, 0, dmaBitMask 38⟩

/-- Witness for C7: a config already holding 3 distinct units refuses
a specifier referencing a 4th. -/
theorem of_xlate_spec_witness :
    ((MasterCfg.mk true [⟨dartA, 1⟩, ⟨dartB, 2⟩, ⟨dartC, 4⟩]).streamMaps.all
        (fun x => x.dart != dartD) = true) ∧
    (MasterCfg.mk true [⟨dartA, 1⟩, ⟨dartB, 2⟩, ⟨dartC, 4⟩]).streamMaps.length = 3 ∧
    ((MasterCfg.mk true [⟨dartA, 1⟩, ⟨dartB, 2⟩, ⟨dartC, 4⟩]).streamMaps.head?.all
        (fun s => s.dart.pgsize == dartD.pgsize) = true) ∧
    apple_dart_of_xlate (some (MasterCfg.mk true [⟨dartA, 1⟩, ⟨dartB, 2⟩, ⟨dartC, 4⟩]))
        dartD [5] = .error (-22) :=
  ⟨by decide, by decide, by decide,
    (of_xlate_spec dartD 5).2.2.2
      (MasterCfg.mk true [⟨dartA, 1⟩, ⟨dartB, 2⟩, ⟨dartC, 4⟩])
      (by decide) (by decide) (by decide)⟩

/-! ## C1, C5, C6: domain finalize -/

/-- On an already-finalized domain (and a pgsize passing the sanity
check), finalize acquires the lock, observes the flag and returns 0
without touching the domain or the allocator. -/
lemma finalize_already_finalized (dom : DartDomain) (cfg : MasterCfg)
    (rT : Nat → Nat) (alloc : IoPgtableCfg → Option IoPgtableResult)
    (pageSize : Nat) (resvRet : Int) (sm0 : SMap) (rest : List SMap)
    (hsm : cfg.streamMaps = sm0 :: rest)
    (hpg : ¬sm0.dart.pgsize > pageSize) (hfin : dom.finalized = true) :
    apple_dart_finalize_domain dom cfg rT alloc pageSize resvRet
      = some ⟨0, dom, true, 0⟩ := by
  simp [apple_dart_finalize_domain, hsm, hpg, hfin]

/-- C1 as amended: finalize is idempotent under the per-domain lock;
the finalized flag is checked once, after the lock is acquired (both
calls take the lock — there is no pre-lock check); calling finalize
twice on the same domain makes exactly one page-table engine
allocation, both callers return success and observe the same domain,
hence the same resolved mask and engine handle. -/
theorem finalize_idempotent_once_locked (dom0 : DartDomain)
    (cfg : MasterCfg) (rT : Nat → Nat)
    (alloc : IoPgtableCfg → Option IoPgtableResult) (pageSize : Nat)
    (r1 r2 : FinalizeResult)
    (h0 : dom0.finalized = false)
    (h1 : apple_dart_finalize_domain dom0 cfg rT alloc pageSize 0 = some r1)
    (hr1 : r1.ret = 0)
    (h2 : apple_dart_finalize_domain r1.dom cfg rT alloc pageSize 0 = some r2) :
    r2.ret = 0 ∧ r2.dom = r1.dom ∧ r1.allocCalls = 1 ∧ r2.allocCalls = 0
    ∧ r1.lockTaken = true ∧ r2.lockTaken = true
    ∧ r2.dom.mask = r1.dom.mask ∧ r2.dom.pgtblOps = r1.dom.pgtblOps := by
  cases hsm : cfg.streamMaps with
  | nil =>
    simp only [apple_dart_finalize_domain, hsm] at h1
    exact Option.noConfusion h1
  | cons sm0 rest =>
    by_cases hpg : sm0.dart.pgsize > pageSize
    · simp only [apple_dart_finalize_domain, hsm, if_pos hpg] at h1
      have hx := Option.some.inj h1
      subst hx
      simp at hr1
    · rcases hadj : lockedAdjust sm0.dart sm0.sidmap rT
          ⟨sm0.dart.pgsize, min sm0.dart.ias (fls64 sm0.dart.dmaMax), sm0.dart.oas⟩
          (min sm0.dart.ias (fls64 sm0.dart.dmaMax)) sm0.dart.dmaMax with _ | ⟨pcfg, dm⟩
      · simp only [apple_dart_finalize_domain, hsm, if_neg hpg, h0,
          Bool.false_eq_true, if_false, hadj] at h1
        have hx := Option.some.inj h1
        subst hx
        simp at hr1
      · rcases halloc : alloc pcfg with _ | ops
        · simp only [apple_dart_finalize_domain, hsm, if_neg hpg, h0,
            Bool.false_eq_true, if_false, hadj, halloc] at h1
          have hx := Option.some.inj h1
          subst hx
          simp at hr1
        · simp only [apple_dart_finalize_domain, hsm, if_neg hpg, h0,
            Bool.false_eq_true, if_false, hadj, halloc] at h1
          have hx := Option.some.inj h1
          subst hx
          rw [finalize_already_finalized _ cfg rT alloc pageSize 0 sm0 rest
            hsm hpg rfl] at h2
          have hx2 := Option.some.inj h2
          subst hx2
          exact ⟨rfl, rfl, rfl, rfl, rfl, rfl, rfl, rfl⟩

/-- C1 counterexample to the stated mechanism: on a domain whose
finalized flag is already true, finalize still acquires the per-domain
lock (lockTaken = true in the result) — the flag is checked only after
acquiring the lock, not before, refuting "checked both before and
after acquiring the lock" (a pre-lock check would return without
taking the lock). -/
theorem finalize_no_prelock_check_cx :
    (DartDomain.mk (some ⟨3, 4096⟩) true (dmaBitMask 32) 4096 0
        (dmaBitMask 32) [⟨dartA, 1⟩]).finalized = true
    ∧ apple_dart_finalize_domain
        (DartDomain.mk (some ⟨3, 4096⟩) true (dmaBitMask 32) 4096 0
          (dmaBitMask 32) [⟨dartA, 1⟩])
        (MasterCfg.mk true [⟨dartA, 1⟩]) (fun _ => 0) allocA 16384 0
      = some ⟨0,
          DartDomain.mk (some ⟨3, 4096⟩) true (dmaBitMask 32) 4096 0
            (dmaBitMask 32) [⟨dartA, 1⟩], true, 0⟩ := by
  refine ⟨rfl, by decide⟩

/-- The domain state produced by finalizing a fresh domain for `dartA`
under the `allocA` engine model; used by the C1 witness. -/
def domA1 : DartDomain :=
  ⟨some ⟨3, 4096⟩, true, dmaBitMask 32, 4096, 0, dmaBitMask 32, [⟨dartA, 1⟩]⟩

/-- Witness for C1's amended statement: two consecutive finalize calls
on a fresh domain for `dartA`. -/
theorem finalize_idempotent_once_locked_witness :
    (domEmpty.finalized = false
    ∧ apple_dart_finalize_domain domEmpty (MasterCfg.mk true [⟨dartA, 1⟩])
        (fun _ => 0) allocA 16384 0 = some ⟨0, domA1, true, 1⟩
    ∧ (FinalizeResult.mk 0 domA1 true 1).ret = 0
    ∧ apple_dart_finalize_domain (FinalizeResult.mk 0 domA1 true 1).dom
        (MasterCfg.mk true [⟨dartA, 1⟩]) (fun _ => 0) allocA 16384 0
      = some ⟨0, domA1, true, 0⟩) ∧
    ((FinalizeResult.mk 0 domA1 true 0).ret = 0
    ∧ (FinalizeResult.mk 0 domA1 true 0).dom = (FinalizeResult.mk 0 domA1 true 1).dom
    ∧ (FinalizeResult.mk 0 domA1 true 1).allocCalls = 1
    ∧ (FinalizeResult.mk 0 domA1 true 0).allocCalls = 0
    ∧ (FinalizeResult.mk 0 domA1 true 1).lockTaken = true
    ∧ (FinalizeResult.mk 0 domA1 true 0).lockTaken = true
    ∧ (FinalizeResult.mk 0 domA1 true 0).dom.mask
        = (FinalizeResult.mk 0 domA1 true 1).dom.mask
    ∧ (FinalizeResult.mk 0 domA1 true 0).dom.pgtblOps
        = (FinalizeResult.mk 0 domA1 true 1).dom.pgtblOps) :=
  ⟨⟨rfl, by decide, rfl, by decide⟩,
    finalize_idempotent_once_locked domEmpty (MasterCfg.mk true [⟨dartA, 1⟩])
      (fun _ => 0) allocA 16384 ⟨0, domA1, true, 1⟩ ⟨0, domA1, true, 0⟩
      rfl (by decide) rfl (by decide)⟩

/-- C5: for a domain finalized by this call, the IOVA mask is 32 bits
when the final page granule is 4 KiB, else 36 bits for a 3-level table
and 47 bits for a 4-level table, in every case capped by (min with)
the hardware unit's input-address-width. -/
theorem finalize_mask_rule (dom : DartDomain) (cfg : MasterCfg) (sm0 : SMap)
    (rest : List SMap) (rT : Nat → Nat)
    (alloc : IoPgtableCfg → Option IoPgtableResult) (pageSize : Nat)
    (resvRet : Int) (r : FinalizeResult) (ops : IoPgtableResult)
    (hsm : cfg.streamMaps = sm0 :: rest)
    (h0 : dom.finalized = false)
    (h1 : apple_dart_finalize_domain dom cfg rT alloc pageSize resvRet = some r)
    (h2 : r.dom.finalized = true)
    (h3 : r.dom.pgtblOps = some ops) :
    (ops.pgsizeBitmap = 4096 → r.dom.mask = dmaBitMask (min sm0.dart.ias 32))
    ∧ (ops.pgsizeBitmap ≠ 4096 → ops.nLevels = 3 →
        r.dom.mask = dmaBitMask (min sm0.dart.ias 36))
    ∧ (ops.pgsizeBitmap ≠ 4096 → ops.nLevels = 4 →
        r.dom.mask = dmaBitMask (min sm0.dart.ias 47)) := by
  by_cases hpg : sm0.dart.pgsize > pageSize
  · simp only [apple_dart_finalize_domain, hsm, if_pos hpg] at h1
    have hx := Option.some.inj h1
    subst hx
    simp [h0] at h2
  · rcases hadj : lockedAdjust sm0.dart sm0.sidmap rT
        ⟨sm0.dart.pgsize, min sm0.dart.ias (fls64 sm0.dart.dmaMax), sm0.dart.oas⟩
        (min sm0.dart.ias (fls64 sm0.dart.dmaMax)) sm0.dart.dmaMax with _ | ⟨pcfg, dm⟩
    · simp only [apple_dart_finalize_domain, hsm, if_neg hpg, h0,
        Bool.false_eq_true, if_false, hadj] at h1
      have hx := Option.some.inj h1
      subst hx
      simp at h2
    · rcases halloc : alloc pcfg with _ | ops2
      · simp only [apple_dart_finalize_domain, hsm, if_neg hpg, h0,
          Bool.false_eq_true, if_false, hadj, halloc] at h1
        have hx := Option.some.inj h1
        subst hx
        simp at h2
      · simp only [apple_dart_finalize_domain, hsm, if_neg hpg, h0,
          Bool.false_eq_true, if_false, hadj, halloc] at h1
        have hx := Option.some.inj h1
        subst hx
        have hops : ops2 = ops := by simpa using h3
        subst hops
        refine ⟨fun h4096 => by simp [h4096], fun hne h3l => by simp [hne, h3l],
          fun hne h4l => by simp [hne, h4l]⟩

/-- A 16 KiB-page t8110-style unit for the C5 witness (exercising the
non-4K, 3-level branch of the mask rule). -/
def dartE : Dart :=
  ⟨6, apple_dart_hw_t8110, 38, 42, 16384, 64, true, false, 0, dmaBitMask 38⟩

/-- The domain produced by finalizing a fresh domain for `dartE`. -/
def domE1 : DartDomain :=
  ⟨some ⟨3, 16384⟩, true, dmaBitMask 36, 16384, 0, dmaBitMask 38, [⟨dartE, 2⟩]⟩

/-- Witness for C5 on `dartE`: granule 16 KiB, 3 levels, ias 38,
so the mask is the 36-bit mask. -/
theorem finalize_mask_rule_witness :
    ((MasterCfg.mk true [⟨dartE, 2⟩]).streamMaps = ⟨dartE, 2⟩ :: []
    ∧ domEmpty.finalized = false
    ∧ apple_dart_finalize_domain domEmpty (MasterCfg.mk true [⟨dartE, 2⟩])
        (fun _ => 0) allocA 16384 0 = some (FinalizeResult.mk 0 domE1 true 1)
    ∧ (FinalizeResult.mk 0 domE1 true 1).dom.finalized = true
    ∧ (FinalizeResult.mk 0 domE1 true 1).dom.pgtblOps
        = some (IoPgtableResult.mk 3 16384)) ∧
    (((IoPgtableResult.mk 3 16384).pgsizeBitmap = 4096 →
        (FinalizeResult.mk 0 domE1 true 1).dom.mask
          = dmaBitMask (min dartE.ias 32))
    ∧ ((IoPgtableResult.mk 3 16384).pgsizeBitmap ≠ 4096 →
        (IoPgtableResult.mk 3 16384).nLevels = 3 →
        (FinalizeResult.mk 0 domE1 true 1).dom.mask
          = dmaBitMask (min dartE.ias 36))
    ∧ ((IoPgtableResult.mk 3 16384).pgsizeBitmap ≠ 4096 →
        (IoPgtableResult.mk 3 16384).nLevels = 4 →
        (FinalizeResult.mk 0 domE1 true 1).dom.mask
          = dmaBitMask (min dartE.ias 47))) :=
  ⟨⟨rfl, rfl, by decide, rfl, rfl⟩,
    finalize_mask_rule domEmpty (MasterCfg.mk true [⟨dartE, 2⟩]) ⟨dartE, 2⟩ []
      (fun _ => 0) allocA 16384 0 (FinalizeResult.mk 0 domE1 true 1)
      (IoPgtableResult.mk 3 16384) rfl rfl (by decide) rfl rfl⟩

/-- On a locked 4-level-capable unit whose active TCR is 3-level and a
requested width above 36 bits, the adjustment block keeps 3 levels:
full-default ranges are narrowed, same-36-bit-window ranges are kept,
anything else is the -ENOMEM failure. -/
lemma lockedAdjust_locked_3level (dart : Dart) (s : Nat) (rT : Nat → Nat)
    (c : IoPgtableCfg) (i m : Nat)
    (hl : dart.locked = true) (h4 : dart.hw.tcr_4level ≠ 0)
    (hias : dart.ias > 36)
    (htcr : rT (findFirstBit s dart.numStreams) &&& dart.hw.tcr_4level = 0)
    (hi : i > 36) :
    lockedAdjust dart s rT c i m
      = (if dart.dmaMin = 0 ∧ m = dmaBitMask dart.ias then
          some (⟨c.pgsizeBitmap, 36, c.oas⟩, dmaBitMask 36)
        else if (dart.dmaMin ^^^ m) &&& compl64 (dmaBitMask 36) ≠ 0 then
          none
        else some (⟨c.pgsizeBitmap, 36, c.oas⟩, m)) := by
  simp [lockedAdjust, hl, h4, hias, htcr, hi]

/-- C6 as amended: finalizing a domain on a locked unit whose active
hardware configuration is 3-level while the requested width exceeds
36 bits fails — with -ENOMEM, not an -EINVAL-class code, and before
any page-table engine allocation — exactly when the configured DMA
range is neither the full default range nor has min and max agreeing
on all bits above bit 35 (one 36-bit-aligned window); a range lying in
one such window, even entirely above 2^36, is accepted with the width
narrowed to 36. -/
theorem finalize_locked_range_check (dom : DartDomain) (cfg : MasterCfg)
    (sm0 : SMap) (rest : List SMap) (rT : Nat → Nat)
    (alloc : IoPgtableCfg → Option IoPgtableResult) (pageSize : Nat)
    (r : FinalizeResult)
    (hsm : cfg.streamMaps = sm0 :: rest)
    (h0 : dom.finalized = false)
    (hpg : ¬sm0.dart.pgsize > pageSize)
    (hl : sm0.dart.locked = true)
    (h4 : sm0.dart.hw.tcr_4level ≠ 0)
    (hias : sm0.dart.ias > 36)
    (htcr : rT (findFirstBit sm0.sidmap sm0.dart.numStreams)
        &&& sm0.dart.hw.tcr_4level = 0)
    (hreq : min sm0.dart.ias (fls64 sm0.dart.dmaMax) > 36)
    (halloc : ∀ c, (alloc c).isSome = true)
    (h1 : apple_dart_finalize_domain dom cfg rT alloc pageSize 0 = some r) :
    (r.ret = -12 ↔
      ¬(sm0.dart.dmaMin = 0 ∧ sm0.dart.dmaMax = dmaBitMask sm0.dart.ias)
      ∧ (sm0.dart.dmaMin ^^^ sm0.dart.dmaMax) &&& compl64 (dmaBitMask 36) ≠ 0)
    ∧ (r.ret = -12 → r.allocCalls = 0 ∧ r.dom.finalized = false) := by
  have hadj := lockedAdjust_locked_3level sm0.dart sm0.sidmap rT
      ⟨sm0.dart.pgsize, min sm0.dart.ias (fls64 sm0.dart.dmaMax), sm0.dart.oas⟩
      (min sm0.dart.ias (fls64 sm0.dart.dmaMax)) sm0.dart.dmaMax
      hl h4 hias htcr hreq
  by_cases hdef : sm0.dart.dmaMin = 0 ∧ sm0.dart.dmaMax = dmaBitMask sm0.dart.ias
  · rw [if_pos hdef] at hadj
    rcases hx : alloc ⟨sm0.dart.pgsize, 36, sm0.dart.oas⟩ with _ | ops
    · have hb := halloc ⟨sm0.dart.pgsize, 36, sm0.dart.oas⟩
      rw [hx] at hb
      simp at hb
    · simp only [apple_dart_finalize_domain, hsm, if_neg hpg, h0,
        Bool.false_eq_true, if_false, hadj, hx] at h1
      have hy := Option.some.inj h1
      subst hy
      simp [hdef.1, hdef.2]
  · rw [if_neg hdef] at hadj
    by_cases hxor :
        (sm0.dart.dmaMin ^^^ sm0.dart.dmaMax) &&& compl64 (dmaBitMask 36) ≠ 0
    · rw [if_pos hxor] at hadj
      simp only [apple_dart_finalize_domain, hsm, if_neg hpg, h0,
        Bool.false_eq_true, if_false, hadj] at h1
      have hy := Option.some.inj h1
      subst hy
      exact ⟨⟨fun _ => ⟨hdef, hxor⟩, fun _ => rfl⟩, fun _ => ⟨rfl, rfl⟩⟩
    · rw [if_neg hxor] at hadj
      have hx0 := not_not.mp hxor
      rcases hx : alloc ⟨sm0.dart.pgsize, 36, sm0.dart.oas⟩ with _ | ops
      · have hb := halloc ⟨sm0.dart.pgsize, 36, sm0.dart.oas⟩
        rw [hx] at hb
        simp at hb
      · simp only [apple_dart_finalize_domain, hsm, if_neg hpg, h0,
          Bool.false_eq_true, if_false, hadj, hx] at h1
        have hy := Option.some.inj h1
        subst hy
        simp [hx0]

/-- A locked t8110-style unit whose DMA range sits entirely above
2^36 but inside one 36-bit window ([2^40, 2^40 + 5]). -/
def dartL6a : Dart :=
  ⟨4, apple_dart_hw_t8110, 42, 42, 4096, 16, true, true, 2 ^ 40, 2 ^ 40 + 5⟩

/-- A locked t8110-style unit whose DMA range [0, 2^38] straddles the
36-bit window boundary. -/
def dartL6b : Dart :=
  ⟨5, apple_dart_hw_t8110, 42, 42, 4096, 16, true, true, 0, 2 ^ 38⟩

/-- C6 counterexample: on a locked 4-level-capable unit read back as
3-level (TCR reads 0) with requested width over 36 bits, the range
[2^40, 2^40 + 5] is neither the full default range nor contained
within 36 bits, yet finalize succeeds (returns 0) — the code only
requires min and max to agree above bit 35.  And when finalize does
reject a range ([0, 2^38]), the error is -ENOMEM (-12), not an
-EINVAL-class configuration error (-22). -/
theorem finalize_locked_range_cx :
    (Option.map (fun r => r.ret)
      (apple_dart_finalize_domain domEmpty (MasterCfg.mk true [⟨dartL6a, 1⟩])
        (fun _ => 0) allocA 16384 0) = some 0)
    ∧ (Option.map (fun r => r.ret)
      (apple_dart_finalize_domain domEmpty (MasterCfg.mk true [⟨dartL6b, 1⟩])
        (fun _ => 0) allocA 16384 0) = some (-12))
    ∧ ((-12 : Int) ≠ -22) := by
  refine ⟨by decide, by decide, by decide⟩

/-- Witness for C6's amended statement on `dartL6b`, whose range
[0, 2^38] is rejected with -ENOMEM before any engine allocation. -/
theorem finalize_locked_range_check_witness :
    ((MasterCfg.mk true [⟨dartL6b, 1⟩]).streamMaps = ⟨dartL6b, 1⟩ :: []
    ∧ domEmpty.finalized = false
    ∧ ¬(⟨dartL6b, 1⟩ : SMap).dart.pgsize > 16384
    ∧ dartL6b.locked = true
    ∧ dartL6b.hw.tcr_4level ≠ 0
    ∧ dartL6b.ias > 36
    ∧ (fun _ => (0 : Nat)) (findFirstBit (1 : Nat) dartL6b.numStreams)
        &&& dartL6b.hw.tcr_4level = 0
    ∧ min dartL6b.ias (fls64 dartL6b.dmaMax) > 36
    ∧ (∀ c, (allocA c).isSome = true)
    ∧ apple_dart_finalize_domain domEmpty (MasterCfg.mk true [⟨dartL6b, 1⟩])
        (fun _ => 0) allocA 16384 0
      = some (FinalizeResult.mk (-12)
          (DartDomain.mk none false 0 0 0 0 [⟨dartL6b, 1⟩]) true 0)) ∧
    (((FinalizeResult.mk (-12)
          (DartDomain.mk none false 0 0 0 0 [⟨dartL6b, 1⟩]) true 0).ret = -12 ↔
        ¬(dartL6b.dmaMin = 0 ∧ dartL6b.dmaMax = dmaBitMask dartL6b.ias)
        ∧ (dartL6b.dmaMin ^^^ dartL6b.dmaMax) &&& compl64 (dmaBitMask 36) ≠ 0)
    ∧ ((FinalizeResult.mk (-12)
          (DartDomain.mk none false 0 0 0 0 [⟨dartL6b, 1⟩]) true 0).ret = -12 →
        (FinalizeResult.mk (-12)
          (DartDomain.mk none false 0 0 0 0 [⟨dartL6b, 1⟩]) true 0).allocCalls = 0
        ∧ (FinalizeResult.mk (-12)
          (DartDomain.mk none false 0 0 0 0 [⟨dartL6b, 1⟩]) true 0).dom.finalized
            = false)) :=
  ⟨⟨rfl, rfl, by decide, rfl, by decide, by decide, by decide, by decide,
      fun _ => rfl, by decide⟩,
    finalize_locked_range_check domEmpty (MasterCfg.mk true [⟨dartL6b, 1⟩])
      ⟨dartL6b, 1⟩ [] (fun _ => 0) allocA 16384
      (FinalizeResult.mk (-12)
        (DartDomain.mk none false 0 0 0 0 [⟨dartL6b, 1⟩]) true 0)
      rfl rfl (by decide) rfl (by decide) (by decide) (by decide) (by decide)
      (fun _ => rfl) (by decide)⟩

end AppleDart
